import Mathlib

/-!
Shallow embedding of `src/rendering/renderers/gl/context/GlContextSystem.ts`
(the WebGL context manager of the pixi.js fork).

The native browser objects are modelled as immutable records:
a `GlHandle` stands for a `WebGLRenderingContext` / `WebGL2RenderingContext`
object, a `Canvas` for the drawing surface (its `getContext ("webgl2", opts)`
result), and `Env` for the ambient global object (whether the
`WebGL2RenderingContext` interface is exposed on `globalThis`).

Method calls on `null`/`undefined` receivers raise a `JsError.typeError`,
matching JavaScript semantics; a raised exception carries the state mutated
so far and the effects already performed, matching the fact that JavaScript
exceptions do not roll back assignments. Observable side effects
(`canvas.getContext` calls, `contextChange` runner emissions, listener
registration and removal, `console.warn`, `gl.useProgram(null)`,
`loseContext.loseContext()`, `event.preventDefault()`) are recorded in an
effect trace.
-/

namespace GlCtx

/-- Model of a native WebGL context object. `isWebGL2Instance` is the truth
value of `gl instanceof WebGL2RenderingContext`; `contextLost` is what
`gl.isContextLost()` returns (mutated by the browser, never by this
component); `attrsPresent`/`attrsStencil` model `gl.getContextAttributes()`
(which may return null); `supportedExtensions` lists the extension names for
which `gl.getExtension` returns a non-null object. -/
structure GlHandle where
  id : Nat
  isWebGL2Instance : Bool
  contextLost : Bool
  attrsPresent : Bool
  attrsStencil : Bool
  supportedExtensions : List String
deriving Repr, DecidableEq

/-- Result record of `gl.getContextAttributes()` when non-null. -/
structure ContextAttributesResult where
  stencil : Bool
deriving Repr, DecidableEq

/-- Model of `gl.getExtension(name)`: the extension object (represented by
its name) when supported, else `none` (null). -/
def GlHandle.getExtension (gl : GlHandle) (name : String) : Option String :=
  if gl.supportedExtensions.contains name then some name else none

/-- Model of `gl.getContextAttributes()`. -/
def GlHandle.getContextAttributes (gl : GlHandle) : Option ContextAttributesResult :=
  if gl.attrsPresent then some { stencil := gl.attrsStencil } else none

/-- Model of `gl.isContextLost()`. -/
def GlHandle.isContextLost (gl : GlHandle) : Bool := gl.contextLost

/-- Ambient globals: whether the string key `WebGL2RenderingContext` is in
`globalThis`. -/
structure Env where
  hasWebGL2Interface : Bool
deriving Repr, DecidableEq

/-- The drawing surface: `webgl2Result` is what
`canvas.getContext ("webgl2", options)` returns (`none` models null, i.e.
the surface cannot produce a modern-generation context). -/
structure Canvas where
  webgl2Result : Option GlHandle
deriving Repr, DecidableEq

/-- The `WebGLContextAttributes` record built by `init` and passed to
`canvas.getContext`. -/
structure WebGLContextAttributes where
  alpha : Bool
  premultipliedAlpha : Bool
  antialias : Option Bool
  stencil : Bool
  preserveDrawingBuffer : Bool
  powerPreference : String
deriving Repr, DecidableEq

/-- The `ContextSystemOptions` record passed to `init`. `context = none`
models a null/absent user context; `premultipliedAlpha = none` models an
undefined field (the source applies `?? true` to it). -/
structure ContextSystemOptions where
  context : Option GlHandle
  powerPreference : String
  premultipliedAlpha : Option Bool
  preserveDrawingBuffer : Bool
  antialias : Option Bool
deriving Repr, DecidableEq

/-- The `WebGLExtensions` record held in `this.extensions`. Each field is the
cached extension object or `none`. The constructor initializes it to the
empty object literal, so every field starts as `none` (undefined). -/
structure WebGLExtensions where
  anisotropicFiltering : Option String := none
  floatTextureLinear : Option String := none
  s3tc : Option String := none
  s3tcSRGB : Option String := none
  etc : Option String := none
  etc1 : Option String := none
  pvrtc : Option String := none
  atc : Option String := none
  astc : Option String := none
  colorBufferFloat : Option String := none
  loseContext : Option String := none
deriving Repr, DecidableEq

/-- The mutable fields of a `GlContextSystem` instance. `rendererAlive` is
whether `this.renderer` is non-null (`destroy` sets it to null);
`backgroundAlpha` models `this.renderer.background.alpha`;
`preserveDrawingBuffer`/`powerPreference` are `none` while still undefined
(the constructor never assigns them); `gl = none` models `this.gl`
undefined or null. -/
structure GlContextSystem where
  rendererAlive : Bool
  backgroundAlpha : ℚ
  webGLVersion : Nat
  uint32Indices : Bool
  preserveDrawingBuffer : Option Bool
  powerPreference : Option String
  gl : Option GlHandle
  extensions : WebGLExtensions
deriving Repr, DecidableEq

/-- The constructor: `webGLVersion = 1`, `extensions = {}`,
`supports.uint32Indices = false`; `gl`, `preserveDrawingBuffer` and
`powerPreference` are left undefined. -/
def GlContextSystem.new (backgroundAlpha : ℚ) : GlContextSystem :=
  { rendererAlive := true
    backgroundAlpha := backgroundAlpha
    webGLVersion := 1
    uint32Indices := false
    preserveDrawingBuffer := none
    powerPreference := none
    gl := none
    extensions := {} }

/-- Observable side effects performed by the component. -/
inductive Effect where
  | getContextCall (attrs : WebGLContextAttributes)
  | contextChangeEmit (gl : Option GlHandle)
  | addListener (name : String)
  | removeListener (name : String)
  | warn (msg : String)
  | useProgramNull
  | loseContextCall
  | preventDefault
deriving Repr, DecidableEq

/-- JavaScript runtime errors raised by the embedded code (calling a method
on a null/undefined receiver). -/
inductive JsError where
  | typeError
deriving Repr, DecidableEq

/-- Result of a stateful operation: on success the new state and the effect
trace; on an exception, the error together with the state already mutated
and the effects already performed (JavaScript exceptions do not roll back). -/
abbrev Res := Except (JsError × GlContextSystem × List Effect) (GlContextSystem × List Effect)

/-- The `isLost` getter: `!this.gl || this.gl.isContextLost()`. -/
def GlContextSystem.isLost (s : GlContextSystem) : Bool :=
  match s.gl with
  | none => true
  | some gl => gl.isContextLost

/-- `validateContext(gl)`: reads the context attributes, sets
`webGLVersion := 2` when `WebGL2RenderingContext in globalThis` and the
handle is an instance of it, warns if the granted attributes lack a stencil
buffer, computes `uint32Indices` as WebGL2-or-extension, and warns when it
is false. It never assigns `webGLVersion := 1`. -/
def validateContext (env : Env) (s : GlContextSystem) (gl : GlHandle) :
    GlContextSystem × List Effect :=
  let attributes := gl.getContextAttributes
  let isWebGl2 := env.hasWebGL2Interface && gl.isWebGL2Instance
  let s1 := if isWebGl2 then { s with webGLVersion := 2 } else s
  let stencilWarn : List Effect :=
    match attributes with
    | some a => if a.stencil then [] else [Effect.warn "stencil"]
    | none => []
  let hasUint32 := isWebGl2 || (gl.getExtension "OES_element_index_uint").isSome
  let s2 := { s1 with uint32Indices := hasUint32 }
  let uintWarn : List Effect :=
    if hasUint32 then [] else [Effect.warn "uint32"]
  (s2, stencilWarn ++ uintWarn)

/-- `initFromContext(gl)`: stores the handle, validates it, emits the
`contextChange` runner event with the handle, and registers the loss and
restoration listeners on the view element. Accessing
`this.renderer.runners` / `this.renderer.view` throws when the renderer has
been nulled out. -/
def initFromContext (env : Env) (s : GlContextSystem) (gl : GlHandle) : Res :=
  let s1 := { s with gl := some gl }
  let vc := validateContext env s1 gl
  if s.rendererAlive then
    .ok (vc.1, vc.2 ++ [Effect.contextChangeEmit (some gl),
      Effect.addListener "webglcontextlost",
      Effect.addListener "webglcontextrestored"])
  else
    .error (JsError.typeError, vc.1, vc.2)

/-- The extension record after `getExtensions` ran against context `gl`:
models `Object.assign(this.extensions, common, { colorBufferFloat })`. The
queried names are exactly those in the source; `WEBGL_lose_context` is not
among them, so the `loseContext` field keeps its previous value. -/
def extensionsAfterQuery (e : WebGLExtensions) (gl : GlHandle) : WebGLExtensions :=
  { e with
      anisotropicFiltering := gl.getExtension "EXT_texture_filter_anisotropic"
      floatTextureLinear := gl.getExtension "OES_texture_float_linear"
      s3tc := gl.getExtension "WEBGL_compressed_texture_s3tc"
      s3tcSRGB := gl.getExtension "WEBGL_compressed_texture_s3tc_srgb"
      etc := gl.getExtension "WEBGL_compressed_texture_etc"
      etc1 := gl.getExtension "WEBGL_compressed_texture_etc1"
      pvrtc := (gl.getExtension "WEBGL_compressed_texture_pvrtc").orElse
        (fun _ => gl.getExtension "WEBKIT_WEBGL_compressed_texture_pvrtc")
      atc := gl.getExtension "WEBGL_compressed_texture_atc"
      astc := gl.getExtension "WEBGL_compressed_texture_astc"
      colorBufferFloat := gl.getExtension "EXT_color_buffer_float" }

/-- `getExtensions()`: destructures `this.gl` and queries a fixed list of
extensions, `Object.assign`-ing them onto `this.extensions`. Throws a
TypeError when `this.gl` is null. -/
def getExtensionsOp (s : GlContextSystem) : Except JsError GlContextSystem :=
  match s.gl with
  | none => .error JsError.typeError
  | some gl =>
      .ok { s with extensions := extensionsAfterQuery s.extensions gl }

/-- `createContext(canvas, options)`: calls
`canvas.getContext ("webgl2", options)`, unconditionally sets
`webGLVersion := 2`, stores the (possibly null) result in `this.gl`, runs
`getExtensions()` (which throws on a null `this.gl`), and returns
`this.gl`. -/
def createContext (canvas : Canvas) (s : GlContextSystem)
    (options : WebGLContextAttributes) :
    Except (JsError × GlContextSystem × List Effect)
      (GlHandle × GlContextSystem × List Effect) :=
  let eff := [Effect.getContextCall options]
  let s1 := { s with webGLVersion := 2, gl := canvas.webgl2Result }
  match getExtensionsOp s1 with
  | .error e => .error (e, s1, eff)
  | .ok s2 =>
      match s2.gl with
      | some gl => .ok (gl, s2, eff)
      | none => .error (JsError.typeError, s2, eff)

/-- `initFromOptions(options)`: creates a context then initializes from it. -/
def initFromOptions (env : Env) (canvas : Canvas) (s : GlContextSystem)
    (options : WebGLContextAttributes) : Res :=
  match createContext canvas s options with
  | .error e => .error e
  | .ok (gl, s1, eff) =>
      match initFromContext env s1 gl with
      | .ok (s2, eff2) => .ok (s2, eff ++ eff2)
      | .error (e, s2, eff2) => .error (e, s2, eff ++ eff2)

/-- `init(options)`: when `options.context` is truthy, adopt it via
`initFromContext`; otherwise derive `alpha` from the background opacity,
default `premultipliedAlpha` to true, capture `preserveDrawingBuffer` and
`powerPreference` into the instance fields, and create a fresh context with
the merged attribute record (with `stencil = true`). -/
def init (env : Env) (canvas : Canvas) (s : GlContextSystem)
    (options : ContextSystemOptions) : Res :=
  match options.context with
  | some ctx => initFromContext env s ctx
  | none =>
      if s.rendererAlive then
        let alpha := decide (s.backgroundAlpha < 1)
        let premultipliedAlpha := options.premultipliedAlpha.getD true
        let s1 := { s with
          preserveDrawingBuffer := some options.preserveDrawingBuffer
          powerPreference := some options.powerPreference }
        initFromOptions env canvas s1
          { alpha := alpha
            premultipliedAlpha := premultipliedAlpha
            antialias := options.antialias
            stencil := true
            preserveDrawingBuffer := options.preserveDrawingBuffer
            powerPreference := options.powerPreference }
      else .error (JsError.typeError, s, [])

/-- `handleContextLost(event)`: calls `event.preventDefault()` and nothing
else — no state change, no emission. -/
def handleContextLost (s : GlContextSystem) : GlContextSystem × List Effect :=
  (s, [Effect.preventDefault])

/-- `handleContextRestored()`: re-emits the `contextChange` runner event
with the currently held `this.gl`. Throws when the renderer is null. -/
def handleContextRestored (s : GlContextSystem) : Res :=
  if s.rendererAlive then
    .ok (s, [Effect.contextChangeEmit s.gl])
  else .error (JsError.typeError, s, [])

/-- `destroy()`: reads `this.renderer.view.element` (throws when the
renderer was already nulled), nulls the renderer, removes the two
listeners, calls `this.gl.useProgram(null)` (throws when no context is
held), and calls `loseContext.loseContext()` only when
`this.extensions.loseContext` is set. -/
def destroy (s : GlContextSystem) : Res :=
  if s.rendererAlive then
    let s1 := { s with rendererAlive := false }
    let eff := [Effect.removeListener "webglcontextlost",
      Effect.removeListener "webglcontextrestored"]
    match s1.gl with
    | none => .error (JsError.typeError, s1, eff)
    | some _ =>
        let eff2 := eff ++ [Effect.useProgramNull]
        match s1.extensions.loseContext with
        | some _ => .ok (s1, eff2 ++ [Effect.loseContextCall])
        | none => .ok (s1, eff2)
  else .error (JsError.typeError, s, [])

/-- Browser-side mutation of the held native context object: sets the lost
flag that `gl.isContextLost()` reports. The handle identity (`id`) is
unchanged — the browser restores the same context object. -/
def setHeldContextLost (s : GlContextSystem) (b : Bool) : GlContextSystem :=
  match s.gl with
  | none => s
  | some gl => { s with gl := some { gl with contextLost := b } }

/-- Web-platform contract for the drawing surface: a successful
`getContext ("webgl2")` call returns an object that is an instance of
`WebGL2RenderingContext`, which in particular requires that interface to be
exposed on the global object. -/
def WellFormedCanvas (env : Env) (canvas : Canvas) : Prop :=
  ∀ gl, canvas.webgl2Result = some gl →
    env.hasWebGL2Interface = true ∧ gl.isWebGL2Instance = true

/-- The attribute record that `init` is expected to pass to the surface,
phrased from the claim: `alpha` is background opacity below 1, `stencil` is
fixed to true, `premultipliedAlpha` defaults to true, the rest are carried
through from the options. -/
def expectedAttrs (bgAlpha : ℚ) (options : ContextSystemOptions) :
    WebGLContextAttributes :=
  { alpha := decide (bgAlpha < 1)
    premultipliedAlpha := options.premultipliedAlpha.getD true
    antialias := options.antialias
    stencil := true
    preserveDrawingBuffer := options.preserveDrawingBuffer
    powerPreference := options.powerPreference }

/-- Concrete WebGL2 context handle used in example runs. -/
def g2h : GlHandle :=
  { id := 1, isWebGL2Instance := true, contextLost := false,
    attrsPresent := true, attrsStencil := true, supportedExtensions := [] }

/-- Concrete legacy (WebGL1) handle: not an instance of the WebGL2
interface, supports the 32-bit index extension. -/
def g1h : GlHandle :=
  { id := 2, isWebGL2Instance := false, contextLost := false,
    attrsPresent := true, attrsStencil := true,
    supportedExtensions := ["OES_element_index_uint"] }

/-- Concrete WebGL2 handle that supports the lose-context extension. -/
def gLoseH : GlHandle :=
  { id := 3, isWebGL2Instance := true, contextLost := false,
    attrsPresent := true, attrsStencil := true,
    supportedExtensions := ["WEBGL_lose_context", "OES_element_index_uint"] }

/-- Environment with the WebGL2 interface exposed. -/
def env0 : Env := { hasWebGL2Interface := true }

/-- Canvas that produces `g2h` for a webgl2 request. -/
def canvas0 : Canvas := { webgl2Result := some g2h }

/-- Canvas that produces `gLoseH` for a webgl2 request. -/
def canvasLose : Canvas := { webgl2Result := some gLoseH }

/-- Default creation options with no user-supplied context. -/
def opts0 : ContextSystemOptions :=
  { context := none, powerPreference := "default", premultipliedAlpha := none,
    preserveDrawingBuffer := false, antialias := none }

/-- Options supplying the legacy handle `g1h` as an existing context. -/
def optsG1 : ContextSystemOptions := { opts0 with context := some g1h }

/-- Run: create a WebGL2 context on a fresh manager, then re-initialize the
same manager with an externally supplied legacy (non-WebGL2) context. -/
def runC4 : Res :=
  match init env0 canvas0 (GlContextSystem.new 1) opts0 with
  | .ok (s1, _) => init env0 canvas0 s1 optsG1
  | .error e => .error e

/-- Final state of `runC4` (dummy fresh state on the error branch, which is
not taken). -/
def runC4State : GlContextSystem :=
  match runC4 with
  | .ok (s, _) => s
  | .error _ => GlContextSystem.new 0

/-- A live manager holding a context, as after a successful initialization. -/
def s0c5 : GlContextSystem := { GlContextSystem.new 1 with gl := some g2h }

/-- The state after a first successful `destroy` of `s0c5`. -/
def s1c5 : GlContextSystem := { s0c5 with rendererAlive := false }

/-- Two `destroy` calls in direct succession. -/
def destroyTwice (s : GlContextSystem) : Res :=
  match destroy s with
  | .ok (s1, _) => destroy s1
  | .error e => .error e

/-- Run: fresh creation on a canvas whose context supports the
lose-context extension. -/
def runC8 : Res := init env0 canvasLose (GlContextSystem.new 1) opts0

/-- Final state of `runC8`. -/
def runC8State : GlContextSystem :=
  match runC8 with
  | .ok (s, _) => s
  | .error _ => GlContextSystem.new 0

/-- Effects produced by destroying the `runC8` manager. -/
def runC8DestroyEffects : List Effect :=
  match destroy runC8State with
  | .ok (_, e) => e
  | .error (_, _, e) => e

/-- A lost version of `g2h` (the browser has flipped the lost flag). -/
def g2hLost : GlHandle := { g2h with contextLost := true }

/-- Manager holding a context that currently reports itself lost. -/
def sLost : GlContextSystem := { GlContextSystem.new 1 with gl := some g2hLost }

/-- The manager state reached on the fresh-creation branch of `init` just
before validation runs: options captured, version stamped 2,
the created handle stored, extensions queried. -/
def freshMidState (s : GlContextSystem) (options : ContextSystemOptions)
    (gl : GlHandle) : GlContextSystem :=
  { s with
      preserveDrawingBuffer := some options.preserveDrawingBuffer
      powerPreference := some options.powerPreference
      webGLVersion := 2
      gl := some gl
      extensions := extensionsAfterQuery s.extensions gl }

/-- Options supplying the WebGL2 handle `g2h` as an existing context. -/
def optsG2 : ContextSystemOptions := { opts0 with context := some g2h }

/-- Concrete fresh-creation run on a fresh manager. -/
def freshRun : Res := init env0 canvas0 (GlContextSystem.new 1) opts0

/-- Final state of `freshRun`. -/
def freshRunState : GlContextSystem :=
  match freshRun with
  | .ok (s, _) => s
  | .error _ => GlContextSystem.new 0

/-- Effect trace of `freshRun`. -/
def freshRunEffects : List Effect :=
  match freshRun with
  | .ok (_, e) => e
  | .error _ => []

/-- Concrete supplied-context run on a fresh manager (legacy handle). -/
def suppliedRun : Res := init env0 canvas0 (GlContextSystem.new 1) optsG1

/-- Final state of `suppliedRun`. -/
def suppliedRunState : GlContextSystem :=
  match suppliedRun with
  | .ok (s, _) => s
  | .error _ => GlContextSystem.new 0

/-- Effect trace of `suppliedRun`. -/
def suppliedRunEffects : List Effect :=
  match suppliedRun with
  | .ok (_, e) => e
  | .error _ => []

/-! Helper lemmas shared by several claim proofs. -/

/-- State characterization of `validateContext`: the version is set to 2
exactly under the instance check, the support flag is the WebGL2-or-extension
disjunction, and every other field is untouched. -/
theorem validateContext_state (env : Env) (s : GlContextSystem) (gl : GlHandle) :
    (validateContext env s gl).1 =
      { s with
        webGLVersion :=
          if env.hasWebGL2Interface && gl.isWebGL2Instance then 2
          else s.webGLVersion
        uint32Indices :=
          (env.hasWebGL2Interface && gl.isWebGL2Instance) ||
            (gl.getExtension "OES_element_index_uint").isSome } := by
  unfold validateContext
  by_cases h : env.hasWebGL2Interface && gl.isWebGL2Instance <;> simp [h]

/-- Effect characterization of `validateContext`: a stencil warning when the
granted attributes lack a stencil buffer, then a wide-index warning when the
support flag came out false. -/
theorem validateContext_effects (env : Env) (s : GlContextSystem) (gl : GlHandle) :
    (validateContext env s gl).2 =
      (match gl.getContextAttributes with
       | some a => if a.stencil then [] else [Effect.warn "stencil"]
       | none => ([] : List Effect)) ++
      (if (env.hasWebGL2Interface && gl.isWebGL2Instance) ||
            (gl.getExtension "OES_element_index_uint").isSome then []
       else [Effect.warn "uint32"]) := rfl

/-- Success characterization of `initFromContext` on a live renderer. -/
theorem initFromContext_ok (env : Env) (s : GlContextSystem) (gl : GlHandle)
    (halive : s.rendererAlive = true) :
    initFromContext env s gl =
      .ok ((validateContext env { s with gl := some gl } gl).1,
        (validateContext env { s with gl := some gl } gl).2 ++
          [Effect.contextChangeEmit (some gl),
           Effect.addListener "webglcontextlost",
           Effect.addListener "webglcontextrestored"]) := by
  simp [initFromContext, halive]

/-- Every effect of `validateContext` is one of the two warnings. -/
theorem validateContext_effects_warn (env : Env) (s : GlContextSystem)
    (gl : GlHandle) (e : Effect) (he : e ∈ (validateContext env s gl).2) :
    e = Effect.warn "stencil" ∨ e = Effect.warn "uint32" := by
  rw [validateContext_effects] at he
  rcases List.mem_append.1 he with h1 | h2
  · rcases hattr : gl.getContextAttributes with _ | a
    · rw [hattr] at h1
      simp at h1
    · rw [hattr] at h1
      dsimp only at h1
      by_cases hst : a.stencil = true
      · rw [if_pos hst] at h1
        simp at h1
      · rw [if_neg hst] at h1
        left
        simpa using h1
  · by_cases hu : (env.hasWebGL2Interface && gl.isWebGL2Instance ||
        (gl.getExtension "OES_element_index_uint").isSome) = true
    · rw [if_pos hu] at h2
      simp at h2
    · rw [if_neg hu] at h2
      right
      simpa using h2

/-- Success characterization of `init` on the fresh-creation branch when the
surface produces a context. -/
theorem init_none_some (env : Env) (canvas : Canvas) (s : GlContextSystem)
    (options : ContextSystemOptions) (gl : GlHandle)
    (hctx : options.context = none) (halive : s.rendererAlive = true)
    (hgl : canvas.webgl2Result = some gl) :
    init env canvas s options =
      .ok ((validateContext env (freshMidState s options gl) gl).1,
        Effect.getContextCall (expectedAttrs s.backgroundAlpha options) ::
          ((validateContext env (freshMidState s options gl) gl).2 ++
            [Effect.contextChangeEmit (some gl),
             Effect.addListener "webglcontextlost",
             Effect.addListener "webglcontextrestored"])) := by
  simp [init, hctx, halive, initFromOptions, createContext, getExtensionsOp,
    hgl, initFromContext, freshMidState, expectedAttrs]

/-- Failure characterization of `init` on the fresh-creation branch when the
surface cannot produce a context: the TypeError from `getExtensions`
propagates, after the single surface call. -/
theorem init_none_none (env : Env) (canvas : Canvas) (s : GlContextSystem)
    (options : ContextSystemOptions)
    (hctx : options.context = none) (halive : s.rendererAlive = true)
    (hgl : canvas.webgl2Result = none) :
    init env canvas s options =
      .error (JsError.typeError,
        { s with
            preserveDrawingBuffer := some options.preserveDrawingBuffer
            powerPreference := some options.powerPreference
            webGLVersion := 2
            gl := none },
        [Effect.getContextCall (expectedAttrs s.backgroundAlpha options)]) := by
  simp [init, hctx, halive, initFromOptions, createContext, getExtensionsOp,
    hgl, expectedAttrs]

end GlCtx

namespace GlCtx

/-- C4 counterexample: starting from a fresh manager, a WebGL2 creation
records version 2; re-initializing the same manager with an externally
supplied context that is not a WebGL2 instance leaves `webGLVersion = 2`,
so validation does not correct a claimed-2/actually-1 mismatch. -/
theorem C4_counterexample :
    runC4.isOk = true ∧ runC4State.gl = some g1h ∧
    g1h.isWebGL2Instance = false ∧ runC4State.webGLVersion = 2 := by decide

/-- C4 (amended): validation corrects the recorded version only in one
direction: it sets `webGLVersion` to 2 exactly when the handle checks as a
WebGL2 instance, and otherwise leaves the previously recorded version
unchanged (there is no downgrade to 1); the held handle itself is not
replaced by validation. -/
theorem C4_validate_version_amended (env : Env) (s : GlContextSystem)
    (gl : GlHandle) :
    (validateContext env s gl).1.webGLVersion =
      (if env.hasWebGL2Interface && gl.isWebGL2Instance then 2
       else s.webGLVersion) ∧
    (validateContext env s gl).1.gl = s.gl := by
  rw [validateContext_state]
  constructor <;> rfl

/-- C5 counterexample: a first `destroy` on a live manager holding a context
succeeds, but an immediately repeated `destroy` raises an error, so the
claimed idempotence fails. -/
theorem C5_counterexample :
    (destroy s0c5).isOk = true ∧ (destroyTwice s0c5).isOk = false := by decide

/-- C5 (amended): `destroy` is not idempotent. After a successful destroy the
renderer reference is null, so a second destroy raises a TypeError before
performing any detachment effect (detachment therefore happens at most
once); and a destroy on a live manager holding no context removes the two
listeners but then raises a TypeError at the context access instead of
being a no-op. -/
theorem C5_destroy_not_idempotent (s s1 : GlContextSystem) (eff : List Effect)
    (h : destroy s = .ok (s1, eff)) :
    destroy s1 = .error (JsError.typeError, s1, []) ∧
    (∀ t : GlContextSystem, t.gl = none → t.rendererAlive = true →
      destroy t = .error (JsError.typeError, { t with rendererAlive := false },
        [Effect.removeListener "webglcontextlost",
         Effect.removeListener "webglcontextrestored"])) := by
  have hra : s1.rendererAlive = false := by
    unfold destroy at h
    split at h
    · dsimp only at h
      split at h
      · cases h
      · split at h <;> (cases h; rfl)
    · cases h
  refine ⟨?_, ?_⟩
  · unfold destroy
    rw [hra]
    simp
  · intro t hgl halive
    unfold destroy
    rw [halive]
    simp [hgl]

/-- C5 witness: the amended statement applied to the concrete post-destroy
state of a live manager holding a context. -/
theorem C5_destroy_not_idempotent_witness :
    destroy s1c5 = .error (JsError.typeError, s1c5, []) :=
  (C5_destroy_not_idempotent s0c5 s1c5
    [Effect.removeListener "webglcontextlost",
     Effect.removeListener "webglcontextrestored", Effect.useProgramNull]
    (by rfl)).1

/-- C6: a loss signal delivered while a context is held calls the
suppression hook exactly once, emits nothing else (in particular no
contextChange notification), changes no manager field, and `isLost` is true
because the held context reports itself lost. -/
theorem C6_handleContextLost_effects (s : GlContextSystem) (gl : GlHandle)
    (hgl : s.gl = some gl) (hlost : gl.contextLost = true) :
    handleContextLost s = (s, [Effect.preventDefault]) ∧ s.isLost = true := by
  refine ⟨rfl, ?_⟩
  simp [GlContextSystem.isLost, hgl, GlHandle.isContextLost, hlost]

/-- C6 witness: the loss handler on a concrete manager holding a lost
context. -/
theorem C6_handleContextLost_witness :
    handleContextLost sLost = (sLost, [Effect.preventDefault]) ∧
    sLost.isLost = true :=
  C6_handleContextLost_effects sLost g2hLost rfl rfl

/-- C7: after a loss followed by a browser restoration of the same handle,
the restoration handler emits exactly one contextChange notification whose
payload is the very handle held before the loss (same identity, now
reporting not lost), the state is otherwise unchanged, and `isLost` is
false afterwards. -/
theorem C7_handleContextRestored_effects (s : GlContextSystem) (gl : GlHandle)
    (hgl : s.gl = some gl) (halive : s.rendererAlive = true) :
    handleContextRestored (setHeldContextLost (handleContextLost s).1 false) =
      .ok (setHeldContextLost s false,
        [Effect.contextChangeEmit (some { gl with contextLost := false })]) ∧
    (setHeldContextLost s false).gl = some { gl with contextLost := false } ∧
    ({ gl with contextLost := false } : GlHandle).id = gl.id ∧
    (setHeldContextLost s false).isLost = false := by
  simp [handleContextLost, setHeldContextLost, hgl, handleContextRestored,
    halive, GlContextSystem.isLost, GlHandle.isContextLost]

/-- C7 witness: the restoration handler on a concrete manager that held a
lost context. -/
theorem C7_handleContextRestored_witness :
    handleContextRestored (setHeldContextLost (handleContextLost sLost).1 false) =
      .ok (setHeldContextLost sLost false,
        [Effect.contextChangeEmit (some { g2hLost with contextLost := false })]) ∧
    (setHeldContextLost sLost false).gl =
      some { g2hLost with contextLost := false } ∧
    ({ g2hLost with contextLost := false } : GlHandle).id = g2hLost.id ∧
    (setHeldContextLost sLost false).isLost = false :=
  C7_handleContextRestored_effects sLost g2hLost rfl rfl

/-- C8: evaluation at the failing input. A context created through
`createContext` supports the lose-context extension, yet after the run the
`extensions.loseContext` field is still unset (the extension query list
omits it), so the subsequent `destroy` succeeds without ever attempting to
force the context loss. -/
theorem C8_loseContext_never_populated :
    gLoseH.supportedExtensions.contains "WEBGL_lose_context" = true ∧
    runC8.isOk = true ∧
    runC8State.gl = some gLoseH ∧
    runC8State.extensions.loseContext = none ∧
    (destroy runC8State).isOk = true ∧
    Effect.loseContextCall ∉ runC8DestroyEffects := by decide

/-- C1: with no pre-existing context, `init` succeeds whenever the surface
can produce a webgl2 context, every success records `webGLVersion = 2` and
holds a context, and when the surface cannot produce any context the call
surfaces an error to the caller instead of returning normally. -/
theorem C1_init_no_context (env : Env) (canvas : Canvas) (s : GlContextSystem)
    (options : ContextSystemOptions)
    (hctx : options.context = none) (halive : s.rendererAlive = true) :
    (canvas.webgl2Result.isSome = true →
      (init env canvas s options).isOk = true) ∧
    (∀ s' eff, init env canvas s options = .ok (s', eff) →
      s'.webGLVersion = 2 ∧ s'.gl.isSome = true) ∧
    (canvas.webgl2Result = none →
      (init env canvas s options).isOk = false) := by
  refine ⟨?_, ?_, ?_⟩
  · intro hs
    rcases hr : canvas.webgl2Result with _ | gl
    · rw [hr] at hs
      cases hs
    · rw [init_none_some env canvas s options gl hctx halive hr]
      rfl
  · intro s' eff h
    rcases hr : canvas.webgl2Result with _ | gl
    · rw [init_none_none env canvas s options hctx halive hr] at h
      cases h
    · rw [init_none_some env canvas s options gl hctx halive hr] at h
      simp only [Except.ok.injEq, Prod.mk.injEq] at h
      obtain ⟨h1, h2⟩ := h
      subst h1
      subst h2
      constructor
      · rw [validateContext_state]
        by_cases hc2 : (env.hasWebGL2Interface && gl.isWebGL2Instance) = true <;>
          simp [hc2, freshMidState]
      · rw [validateContext_state]
        simp [freshMidState]
  · intro hr
    rw [init_none_none env canvas s options hctx halive hr]
    rfl

/-- C1 witness: the concrete fresh-creation run on a WebGL2-capable canvas
succeeds. -/
theorem C1_init_no_context_witness :
    (init env0 canvas0 (GlContextSystem.new 1) opts0).isOk = true :=
  (C1_init_no_context env0 canvas0 (GlContextSystem.new 1) opts0 rfl rfl).1 rfl

/-- C2: supplying an existing WebGL2-instance handle makes `init` succeed
with `webGLVersion = 2` and that very handle held — whatever the other
option fields say — and the run performs no surface getContext call. -/
theorem C2_existing_webgl2_context (env : Env) (canvas : Canvas)
    (s : GlContextSystem) (options : ContextSystemOptions) (ctx : GlHandle)
    (hctx : options.context = some ctx)
    (henv : env.hasWebGL2Interface = true)
    (hinst : ctx.isWebGL2Instance = true)
    (halive : s.rendererAlive = true) :
    (init env canvas s options).isOk = true ∧
    (∀ s' eff, init env canvas s options = .ok (s', eff) →
      s'.webGLVersion = 2 ∧ s'.gl = some ctx ∧
      ∀ a, Effect.getContextCall a ∉ eff) := by
  have hinit : init env canvas s options = initFromContext env s ctx := by
    simp [init, hctx]
  rw [hinit, initFromContext_ok env s ctx halive]
  refine ⟨rfl, ?_⟩
  intro s' eff h
  simp only [Except.ok.injEq, Prod.mk.injEq] at h
  obtain ⟨h1, h2⟩ := h
  subst h1
  subst h2
  refine ⟨?_, ?_, ?_⟩
  · rw [validateContext_state]
    simp [henv, hinst]
  · rw [validateContext_state]
  · intro a ha
    rcases List.mem_append.1 ha with hv | hl
    · rcases validateContext_effects_warn env _ ctx _ hv with h4 | h4 <;> simp at h4
    · simp at hl

/-- C2 witness: the concrete supplied-WebGL2-context run succeeds. -/
theorem C2_existing_webgl2_context_witness :
    (init env0 canvas0 (GlContextSystem.new 1) optsG2).isOk = true :=
  (C2_existing_webgl2_context env0 canvas0 (GlContextSystem.new 1) optsG2 g2h
    rfl rfl rfl rfl).1

/-- C3: after a successful initialization of a freshly constructed manager
(under the web-platform contract on the surface), the wide-index support
flag is true whenever the recorded version is 2; when the recorded version
is 1 it equals the presence of the 32-bit index extension on the held
context, and a warning is emitted whenever the flag is false. -/
theorem C3_uint32_support (env : Env) (canvas : Canvas) (bg : ℚ)
    (options : ContextSystemOptions) (s' : GlContextSystem)
    (eff : List Effect) (gl : GlHandle)
    (hwf : WellFormedCanvas env canvas)
    (hrun : init env canvas (GlContextSystem.new bg) options = .ok (s', eff))
    (hgl : s'.gl = some gl) :
    (s'.webGLVersion = 2 → s'.uint32Indices = true) ∧
    (s'.webGLVersion = 1 →
      s'.uint32Indices = (gl.getExtension "OES_element_index_uint").isSome) ∧
    (s'.uint32Indices = false → Effect.warn "uint32" ∈ eff) := by
  rcases hc : options.context with _ | ctx
  · rcases hr : canvas.webgl2Result with _ | g
    · rw [init_none_none env canvas _ options hc rfl hr] at hrun
      cases hrun
    · obtain ⟨henv, hinst⟩ := hwf g hr
      rw [init_none_some env canvas _ options g hc rfl hr] at hrun
      simp only [Except.ok.injEq, Prod.mk.injEq] at hrun
      obtain ⟨h1, h2⟩ := hrun
      subst h1
      subst h2
      refine ⟨?_, ?_, ?_⟩
      · intro _
        rw [validateContext_state]
        simp [henv, hinst]
      · intro hv
        rw [validateContext_state] at hv
        simp [henv, hinst] at hv
      · intro hu
        rw [validateContext_state] at hu
        simp [henv, hinst] at hu
  · have hinit : init env canvas (GlContextSystem.new bg) options =
        initFromContext env (GlContextSystem.new bg) ctx := by
      simp [init, hc]
    rw [hinit, initFromContext_ok env _ ctx rfl] at hrun
    simp only [Except.ok.injEq, Prod.mk.injEq] at hrun
    obtain ⟨h1, h2⟩ := hrun
    subst h1
    subst h2
    rw [validateContext_state] at hgl
    have hgeq : ctx = gl := by
      simpa using hgl
    subst hgeq
    by_cases hc2 : (env.hasWebGL2Interface && ctx.isWebGL2Instance) = true
    · refine ⟨?_, ?_, ?_⟩
      · intro _
        rw [validateContext_state]
        simp [hc2]
      · intro hv
        rw [validateContext_state] at hv
        simp [hc2] at hv
      · intro hu
        rw [validateContext_state] at hu
        simp [hc2] at hu
    · have hc2f : (env.hasWebGL2Interface && ctx.isWebGL2Instance) = false := by
        simpa using hc2
      refine ⟨?_, ?_, ?_⟩
      · intro hv
        rw [validateContext_state] at hv
        simp [hc2f, GlContextSystem.new] at hv
      · intro _
        rw [validateContext_state]
        simp [hc2f]
      · intro hu
        rw [validateContext_state] at hu
        simp [hc2f] at hu
        apply List.mem_append_left
        rw [validateContext_effects]
        apply List.mem_append_right
        simp [hc2f, hu]

/-- C3 witness: the concrete fresh-creation run yields the support flag. -/
theorem C3_uint32_support_witness : freshRunState.uint32Indices = true :=
  (C3_uint32_support env0 canvas0 1 opts0 freshRunState freshRunEffects g2h
    (fun gl hgl => by
      have h : some g2h = some gl := hgl
      injection h with h2
      subst h2
      exact ⟨rfl, rfl⟩)
    rfl rfl).1 rfl

/-- C9: on the fresh-creation branch, the attribute record handed to the
surface has `alpha` equal to (background alpha below 1), `stencil` fixed to
true, `premultipliedAlpha` defaulted to true when unset, and the callers
preserveDrawingBuffer, powerPreference and antialias carried through; it is
the first effect of the run and the only surface call. -/
theorem C9_creation_attrs (env : Env) (canvas : Canvas) (s : GlContextSystem)
    (options : ContextSystemOptions) (s' : GlContextSystem) (eff : List Effect)
    (hctx : options.context = none)
    (hrun : init env canvas s options = .ok (s', eff)) :
    eff.head? =
      some (Effect.getContextCall (expectedAttrs s.backgroundAlpha options)) ∧
    ∀ a, Effect.getContextCall a ∈ eff →
      a = expectedAttrs s.backgroundAlpha options := by
  have halive : s.rendererAlive = true := by
    by_cases hb : s.rendererAlive = true
    · exact hb
    · have hf : s.rendererAlive = false := by simpa using hb
      simp [init, hctx, hf] at hrun
  rcases hr : canvas.webgl2Result with _ | g
  · rw [init_none_none env canvas s options hctx halive hr] at hrun
    cases hrun
  · rw [init_none_some env canvas s options g hctx halive hr] at hrun
    simp only [Except.ok.injEq, Prod.mk.injEq] at hrun
    obtain ⟨h1, h2⟩ := hrun
    subst h1
    subst h2
    refine ⟨rfl, ?_⟩
    intro a ha
    rcases List.mem_cons.1 ha with h | h
    · exact Effect.getContextCall.inj h
    · rcases List.mem_append.1 h with hv | hl
      · rcases validateContext_effects_warn env _ g _ hv with h4 | h4 <;> simp at h4
      · simp at hl

/-- C9 witness: the concrete fresh-creation run passes the expected
record. -/
theorem C9_creation_attrs_witness :
    freshRunEffects.head? =
      some (Effect.getContextCall (expectedAttrs 1 opts0)) :=
  (C9_creation_attrs env0 canvas0 (GlContextSystem.new 1) opts0
    freshRunState freshRunEffects rfl rfl).1

/-- C10: on the supplied-context branch `init` leaves preserveDrawingBuffer,
powerPreference, the extensions record, the background configuration and
the renderer slot unchanged; it stores the supplied handle, registers the
two listeners, and performs no surface getContext call. -/
theorem C10_supplied_context_frame (env : Env) (canvas : Canvas)
    (s : GlContextSystem) (options : ContextSystemOptions) (ctx : GlHandle)
    (s' : GlContextSystem) (eff : List Effect)
    (hctx : options.context = some ctx)
    (hrun : init env canvas s options = .ok (s', eff)) :
    s'.preserveDrawingBuffer = s.preserveDrawingBuffer ∧
    s'.powerPreference = s.powerPreference ∧
    s'.extensions = s.extensions ∧
    s'.backgroundAlpha = s.backgroundAlpha ∧
    s'.rendererAlive = s.rendererAlive ∧
    s'.gl = some ctx ∧
    Effect.addListener "webglcontextlost" ∈ eff ∧
    Effect.addListener "webglcontextrestored" ∈ eff ∧
    ∀ a, Effect.getContextCall a ∉ eff := by
  have hinit : init env canvas s options = initFromContext env s ctx := by
    simp [init, hctx]
  rw [hinit] at hrun
  have halive : s.rendererAlive = true := by
    by_cases hb : s.rendererAlive = true
    · exact hb
    · have hf : s.rendererAlive = false := by simpa using hb
      simp [initFromContext, hf] at hrun
  rw [initFromContext_ok env s ctx halive] at hrun
  simp only [Except.ok.injEq, Prod.mk.injEq] at hrun
  obtain ⟨h1, h2⟩ := hrun
  subst h1
  subst h2
  rw [validateContext_state]
  refine ⟨rfl, rfl, rfl, rfl, rfl, rfl, ?_, ?_, ?_⟩
  · exact List.mem_append_right _ (by simp)
  · exact List.mem_append_right _ (by simp)
  · intro a ha
    rcases List.mem_append.1 ha with hv | hl
    · rcases validateContext_effects_warn env _ ctx _ hv with h4 | h4 <;> simp at h4
    · simp at hl

/-- C10 witness: the concrete supplied-context run leaves the two captured
option fields at their undefined defaults. -/
theorem C10_supplied_context_frame_witness :
    suppliedRunState.preserveDrawingBuffer = none ∧
    suppliedRunState.powerPreference = none :=
  ⟨((C10_supplied_context_frame env0 canvas0 (GlContextSystem.new 1) optsG1 g1h
      suppliedRunState suppliedRunEffects rfl rfl).1).trans rfl,
   ((C10_supplied_context_frame env0 canvas0 (GlContextSystem.new 1) optsG1 g1h
      suppliedRunState suppliedRunEffects rfl rfl).2.1).trans rfl⟩

end GlCtx
